import Mathlib

/-!
Shallow embedding of the GPS grid-tracking app (src/App.tsx).

Coordinates are modelled over the real numbers; JavaScript Math.floor
becomes the mathematical floor Int.floor, and Math.cos becomes Real.cos.
Cell identifiers, produced in the source as the string "gi_gj", are
modelled as the pair (gi, gj) of integers (the string encoding is
injective, so nothing is lost).  The React component state is modelled
as an explicit record, and the fallible AsyncStorage / JSON.parse
collaborators as Except-valued oracles passed to each operation.
-/

/-- A latitude/longitude pair, as in the session coordinate records. -/
structure Coord where
  latitude : ℝ
  longitude : ℝ

/-- GpsSession from src/App.tsx (timestamps as naturals). -/
structure GpsSession where
  id : String
  startTime : ℕ
  endTime : ℕ
  coordinates : List Coord

/-- GRID_SIZE_METERS = 100. -/
def GRID_SIZE_METERS : ℝ := 100

/-- METERS_PER_DEGREE_LAT = 111320. -/
def METERS_PER_DEGREE_LAT : ℝ := 111320

/-- getMetersPerDegreeLon from src/App.tsx: 111320 * cos(lat * pi / 180). -/
noncomputable def getMetersPerDegreeLon (lat : ℝ) : ℝ :=
  111320 * Real.cos (lat * Real.pi / 180)

/-- coordToGridId from src/App.tsx: project to planar meters and floor-divide
by the 100 m grid size.  The source returns the string "gi_gj"; we return
the pair (gi, gj). -/
noncomputable def coordToGridId (lat lon : ℝ) : ℤ × ℤ :=
  let latMeters := lat * METERS_PER_DEGREE_LAT
  let lonMeters := lon * getMetersPerDegreeLon lat
  (⌊latMeters / GRID_SIZE_METERS⌋, ⌊lonMeters / GRID_SIZE_METERS⌋)

/-- latMin of gridIdToCorners in src/App.tsx. -/
noncomputable def latMinOf (gi : ℤ) : ℝ :=
  ((gi : ℝ) * GRID_SIZE_METERS) / METERS_PER_DEGREE_LAT

/-- latMax of gridIdToCorners in src/App.tsx. -/
noncomputable def latMaxOf (gi : ℤ) : ℝ :=
  (((gi : ℝ) + 1) * GRID_SIZE_METERS) / METERS_PER_DEGREE_LAT

/-- latCenter of gridIdToCorners in src/App.tsx. -/
noncomputable def latCenterOf (gi : ℤ) : ℝ :=
  (latMinOf gi + latMaxOf gi) / 2

/-- lonMin of gridIdToCorners in src/App.tsx (longitude scale taken at the
cell's vertical midpoint latitude). -/
noncomputable def lonMinOf (gi gj : ℤ) : ℝ :=
  ((gj : ℝ) * GRID_SIZE_METERS) / getMetersPerDegreeLon (latCenterOf gi)

/-- lonMax of gridIdToCorners in src/App.tsx. -/
noncomputable def lonMaxOf (gi gj : ℤ) : ℝ :=
  (((gj : ℝ) + 1) * GRID_SIZE_METERS) / getMetersPerDegreeLon (latCenterOf gi)

/-- gridIdToCorners from src/App.tsx: the closed 5-point ring
SW, SE, NE, NW, SW of the cell (gi, gj). -/
noncomputable def gridIdToCorners (gi gj : ℤ) : List Coord :=
  [⟨latMinOf gi, lonMinOf gi gj⟩,
   ⟨latMinOf gi, lonMaxOf gi gj⟩,
   ⟨latMaxOf gi, lonMaxOf gi gj⟩,
   ⟨latMaxOf gi, lonMinOf gi gj⟩,
   ⟨latMinOf gi, lonMinOf gi gj⟩]

/-- The rectangular region spanned by the corners gridIdToCorners returns,
excluding the maximum-latitude and maximum-longitude edges. -/
def inCellRegion (gi gj : ℤ) (lat lon : ℝ) : Prop :=
  latMinOf gi ≤ lat ∧ lat < latMaxOf gi ∧
    lonMinOf gi gj ≤ lon ∧ lon < lonMaxOf gi gj

/-- getColorForCount from src/App.tsx. -/
def getColorForCount (count : ℕ) : String :=
  if count ≥ 10 then "#FF0000"
  else if count ≥ 5 then "#FFA500"
  else if count ≥ 2 then "#FFD700"
  else "#90EE90"

/-- The spec's severity tiers. -/
inductive Tier where
  | Low
  | Medium
  | High
  | Severe
deriving DecidableEq

/-- Modelled from the spec: tierOf with inclusive lower-bound thresholds
evaluated highest-first (spec section 4.5); used to compare the spec's
classification policy with getColorForCount from the source. -/
def tierOf (count : ℕ) : Tier :=
  if count ≥ 10 then Tier.Severe
  else if count ≥ 5 then Tier.High
  else if count ≥ 2 then Tier.Medium
  else Tier.Low

/-- The display color of each tier, per the legend in src/App.tsx. -/
def colorOfTier : Tier → String
  | Tier.Low => "#90EE90"
  | Tier.Medium => "#FFD700"
  | Tier.High => "#FFA500"
  | Tier.Severe => "#FF0000"

/-- addSessionGrids from the gridCounts memo in src/App.tsx: collect the set
of distinct cells touched by one session's coordinates, then bump each such
cell's running count by exactly 1. -/
noncomputable def addSessionGrids (counts : ℤ × ℤ → ℕ) (coords : List Coord) :
    ℤ × ℤ → ℕ :=
  let grids := (coords.map fun c => coordToGridId c.latitude c.longitude).toFinset
  fun g => if g ∈ grids then counts g + 1 else counts g

/-- gridCounts from src/App.tsx: fold addSessionGrids over the saved sessions
starting from the empty mapping (absent keys count 0), then add the active
buffer as one more pseudo-session when it is non-empty. -/
noncomputable def gridCounts (savedSessions : List GpsSession)
    (locations : List Coord) : ℤ × ℤ → ℕ :=
  let counts := savedSessions.foldl
    (fun acc session => addSessionGrids acc session.coordinates) (fun _ => 0)
  if 0 < locations.length then addSessionGrids counts locations else counts

/-- A coordinate list touches cell g when some coordinate maps to g. -/
def touches (coords : List Coord) (g : ℤ × ℤ) : Prop :=
  ∃ c ∈ coords, coordToGridId c.latitude c.longitude = g

noncomputable instance (coords : List Coord) (g : ℤ × ℤ) :
    Decidable (touches coords g) := by
  unfold touches
  infer_instance

lemma addSessionGrids_apply (counts : ℤ × ℤ → ℕ) (coords : List Coord)
    (g : ℤ × ℤ) :
    addSessionGrids counts coords g =
      counts g + if touches coords g then 1 else 0 := by
  unfold addSessionGrids touches
  by_cases h : ∃ c ∈ coords, coordToGridId c.latitude c.longitude = g
  · rw [if_pos h, if_pos]
    simpa [List.mem_toFinset, List.mem_map] using h
  · rw [if_neg h, if_neg, Nat.add_zero]
    simpa [List.mem_toFinset, List.mem_map] using h

lemma gridCounts_foldl (S : List GpsSession) (init : ℤ × ℤ → ℕ) (g : ℤ × ℤ) :
    (S.foldl (fun acc session => addSessionGrids acc session.coordinates)
        init) g =
      init g + S.countP (fun s => decide (touches s.coordinates g)) := by
  induction S generalizing init with
  | nil => simp
  | cons s rest ih =>
      rw [List.foldl_cons, ih, addSessionGrids_apply, List.countP_cons]
      by_cases h : touches s.coordinates g
      · simp only [h, if_pos h, decide_True, if_true]
        omega
      · simp only [h, if_neg h, decide_False, Bool.false_eq_true, if_false]
        omega

lemma gridCounts_eq (S : List GpsSession) (L : List Coord) (g : ℤ × ℤ) :
    gridCounts S L g =
      S.countP (fun s => decide (touches s.coordinates g)) +
        if 0 < L.length ∧ touches L g then 1 else 0 := by
  unfold gridCounts
  by_cases hL : 0 < L.length
  · rw [if_pos hL, addSessionGrids_apply, gridCounts_foldl]
    by_cases h : touches L g
    · rw [if_pos h, if_pos ⟨hL, h⟩, Nat.zero_add]
    · rw [if_neg h, if_neg (fun hc => h hc.2), Nat.zero_add, Nat.add_zero]
  · rw [if_neg hL, gridCounts_foldl, Nat.zero_add,
      if_neg (fun hc => hL hc.1), Nat.add_zero]

/-- C1: every cell's count in gridCounts equals the number of sessions whose
coordinate set touches the cell, plus 1 for the active buffer when it is
non-empty and touches the cell — never the number of samples; in particular
a single session of 50 samples in one cell yields count 1 for that cell. -/
theorem grid_counts_session_dedup :
    (∀ (S : List GpsSession) (L : List Coord) (g : ℤ × ℤ),
        gridCounts S L g =
          S.countP (fun s => decide (touches s.coordinates g)) +
            if 0 < L.length ∧ touches L g then 1 else 0) ∧
      ∀ (c : Coord) (i : String) (t0 t1 : ℕ),
        gridCounts [⟨i, t0, t1, List.replicate 50 c⟩] []
          (coordToGridId c.latitude c.longitude) = 1 := by
  refine ⟨gridCounts_eq, fun c i t0 t1 => ?_⟩
  have ht : touches (List.replicate 50 c) (coordToGridId c.latitude c.longitude) :=
    ⟨c, List.mem_replicate.mpr ⟨by norm_num, rfl⟩, rfl⟩
  rw [gridCounts_eq]
  simp only [List.countP_cons, List.countP_nil, List.length_nil,
    decide_eq_true_eq, ht, if_true, Nat.lt_irrefl, false_and, if_false]

/-- C7: gridCounts over the concatenation of two session lists (empty active
buffer) assigns every cell the sum of the counts over each list alone;
counts add per-session even when both lists touch the same cells. -/
theorem grid_counts_additive :
    ∀ (A B : List GpsSession) (g : ℤ × ℤ),
      gridCounts (A ++ B) [] g = gridCounts A [] g + gridCounts B [] g := by
  intro A B g
  rw [gridCounts_eq, gridCounts_eq, gridCounts_eq, List.countP_append]
  simp

/-- C3: the classification is by inclusive lower-bound thresholds evaluated
highest-first (count >= 10 Severe, else >= 5 High, else >= 2 Medium, else
Low), i.e. getColorForCount realises exactly the spec's tierOf; and the
named boundary values classify as the claim lists. -/
theorem tier_thresholds :
    (∀ count : ℕ, getColorForCount count = colorOfTier (tierOf count)) ∧
      tierOf 1 = Tier.Low ∧ tierOf 2 = Tier.Medium ∧ tierOf 4 = Tier.Medium ∧
      tierOf 5 = Tier.High ∧ tierOf 9 = Tier.High ∧ tierOf 10 = Tier.Severe ∧
      tierOf 100 = Tier.Severe := by
  refine ⟨fun count => ?_, by decide, by decide, by decide, by decide,
    by decide, by decide, by decide⟩
  unfold getColorForCount tierOf
  split_ifs <;> rfl

/-- The map region record of react-native-maps. -/
structure MapRegion where
  latitude : ℝ
  longitude : ℝ
  latitudeDelta : ℝ
  longitudeDelta : ℝ

/-- DEFAULT_REGION from src/App.tsx. -/
noncomputable def DEFAULT_REGION : MapRegion :=
  ⟨35.6812, 139.7671, 0.01, 0.01⟩

/-- The component state of App in src/App.tsx: the useState hooks plus the
subscription and start-time refs.  Console output is modelled as a log of
messages appended by the catch branches. -/
structure AppState where
  isRecording : Bool
  currentLocation : Option Coord
  locations : List Coord
  errorMessage : Option String
  region : MapRegion
  savedSessions : List GpsSession
  subscriptionActive : Bool
  startTime : Option ℕ
  log : List String

/-- The initial hook values of App in src/App.tsx. -/
noncomputable def initialState : AppState :=
  ⟨false, none, [], none, DEFAULT_REGION, [], false, none, []⟩

/-- The outcome of AsyncStorage.getItem followed by JSON.parse:
Except.error = getItem threw; Except.ok none = no stored value;
Except.ok (some p) = a stored value whose parse outcome is p. -/
def StorageRead : Type :=
  Except String (Option (Except String (List GpsSession)))

/-- loadSavedSessions from src/App.tsx: read and parse the stored sessions;
any failure is caught and logged, leaving the session list untouched. -/
def loadSavedSessions (s : AppState) (stored : StorageRead) : AppState :=
  match stored with
  | Except.error _ =>
      { s with log := s.log ++ ["Failed to load saved sessions:"] }
  | Except.ok none => s
  | Except.ok (some (Except.error _)) =>
      { s with log := s.log ++ ["Failed to load saved sessions:"] }
  | Except.ok (some (Except.ok parsed)) => { s with savedSessions := parsed }

/-- startTracking from src/App.tsx.  granted models the permission request
outcome, fix the initial getCurrentPositionAsync fix, now the Date.now()
start timestamp. -/
noncomputable def startTracking (s : AppState) (granted : Bool) (fix : Coord)
    (now : ℕ) : AppState :=
  if s.isRecording then s
  else
    let s1 := { s with errorMessage := none }
    if granted = false then
      { s1 with errorMessage := some "位置情報の権限が許可されていません。",
                isRecording := false }
    else
      { s1 with
          currentLocation := some fix,
          region := ⟨fix.latitude, fix.longitude, 0.005, 0.005⟩,
          locations := [fix],
          startTime := some now,
          isRecording := true,
          subscriptionActive := true }

/-- The watchPositionAsync callback in startTracking of src/App.tsx: update
the current location and append the sample to the buffer. -/
def onSample (s : AppState) (c : Coord) : AppState :=
  { s with currentLocation := some c, locations := s.locations ++ [c] }

/-- stopTracking from src/App.tsx.  now models Date.now() at stop; stored
the AsyncStorage.getItem/JSON.parse outcome inside the try block; writeOk
whether AsyncStorage.setItem succeeds.  Any throw inside the try block is
caught and logged, and the trailing setLocations([]) /
setCurrentLocation(null) run unconditionally. -/
def stopTracking (s : AppState) (now : ℕ) (stored : StorageRead)
    (writeOk : Bool) : AppState :=
  let s1 := { s with subscriptionActive := false, isRecording := false }
  let s2 :=
    if 0 < s1.locations.length ∧ s1.startTime ≠ none then
      let session : GpsSession :=
        ⟨"session_" ++ toString now, s1.startTime.getD 0, now, s1.locations⟩
      let s1b := { s1 with startTime := none }
      match stored with
      | Except.error _ =>
          { s1b with log := s1b.log ++ ["Failed to save session:"] }
      | Except.ok raw =>
          match (match raw with | none => Except.ok [] | some p => p) with
          | Except.error _ =>
              { s1b with log := s1b.log ++ ["Failed to save session:"] }
          | Except.ok prev =>
              if writeOk then { s1b with savedSessions := prev ++ [session] }
              else { s1b with log := s1b.log ++ ["Failed to save session:"] }
    else s1
  { s2 with locations := [], currentLocation := none }

/-- C8: when loading stored sessions fails (getItem throws or the stored
value does not parse), the failure is caught: starting from the initial
state the saved-session list is left empty, and in general the state is
unchanged except for the logged failure — the program does not crash. -/
theorem load_failure_empty_sessions :
    ∀ e : String,
      (loadSavedSessions initialState (Except.error e)).savedSessions = [] ∧
        (loadSavedSessions initialState
            (Except.ok (some (Except.error e)))).savedSessions = [] ∧
        ∀ s : AppState,
          loadSavedSessions s (Except.ok (some (Except.error e))) =
            { s with log := s.log ++ ["Failed to load saved sessions:"] } :=
  fun _ => ⟨rfl, rfl, fun _ => rfl⟩

/-- C10: stopTracking unconditionally clears the active buffer and the
current location at the end of every invocation, including when the storage
write fails; and with a failing write the saved-session list is unchanged,
so the buffered samples of a failed-persist session are retained nowhere in
the recorder state. -/
theorem stop_clears_buffer :
    ∀ (s : AppState) (now : ℕ) (stored : StorageRead) (writeOk : Bool),
      (stopTracking s now stored writeOk).locations = [] ∧
        (stopTracking s now stored writeOk).currentLocation = none ∧
        (stopTracking s now stored false).savedSessions = s.savedSessions := by
  intro s now stored writeOk
  refine ⟨rfl, rfl, ?_⟩
  by_cases hg : 0 < s.locations.length ∧ s.startTime ≠ none
  · rcases stored with e | raw
    · simp [stopTracking, hg]
    · rcases raw with _ | p
      · simp [stopTracking, hg]
      · rcases p with e2 | prev
        · simp [stopTracking, hg]
        · simp [stopTracking, hg]
  · simp [stopTracking, hg]

/-- C9: calling start while already recording returns immediately leaving the
single buffer untouched; calling stop while idle is a no-op (the state is
unchanged, no session is produced); and a full start, 3 samples, stop cycle
with granted permission and successful storage produces exactly one sealed
session of 4 coordinates (the initial fix plus the 3 samples) with
startTime less than or equal to endTime, leaving the recorder idle with an
empty buffer. -/
theorem recorder_lifecycle :
    (∀ (s : AppState) (granted : Bool) (fix : Coord) (now : ℕ),
        s.isRecording = true → startTracking s granted fix now = s) ∧
      (∀ (s : AppState) (now : ℕ) (stored : StorageRead) (writeOk : Bool),
        s.isRecording = false → s.locations = [] → s.startTime = none →
        s.subscriptionActive = false → s.currentLocation = none →
        stopTracking s now stored writeOk = s) ∧
      ∀ (fix c1 c2 c3 : Coord) (t0 t1 : ℕ), t0 ≤ t1 →
        stopTracking (onSample (onSample (onSample
              (startTracking initialState true fix t0) c1) c2) c3) t1
            (Except.ok none) true =
          { initialState with
              region := ⟨fix.latitude, fix.longitude, 0.005, 0.005⟩,
              savedSessions :=
                [⟨"session_" ++ toString t1, t0, t1, [fix, c1, c2, c3]⟩] } ∧
          ∀ sess ∈ (stopTracking (onSample (onSample (onSample
              (startTracking initialState true fix t0) c1) c2) c3) t1
              (Except.ok none) true).savedSessions,
            sess.startTime ≤ sess.endTime := by
  refine ⟨fun s granted fix now h => by simp [startTracking, h],
    fun s now stored writeOk h1 h2 h3 h4 h5 => ?_,
    fun fix c1 c2 c3 t0 t1 h01 => ⟨rfl, ?_⟩⟩
  · obtain ⟨rec, cur, locs, err, reg, ss, sub, st, lg⟩ := s
    simp only at h1 h2 h3 h4 h5
    subst h1 h2 h3 h4 h5
    rfl
  · intro sess hs
    have hrw : (stopTracking (onSample (onSample (onSample
        (startTracking initialState true fix t0) c1) c2) c3) t1
        (Except.ok none) true).savedSessions =
        [⟨"session_" ++ toString t1, t0, t1, [fix, c1, c2, c3]⟩] := rfl
    rw [hrw, List.mem_singleton] at hs
    subst hs
    exact h01

/-- Witness for C9 at concrete inputs: start while recording is the
identity, stop while idle is the identity, and the concrete
start, 3 samples, stop run seals exactly one 4-coordinate session. -/
theorem recorder_lifecycle_witness :
    startTracking { initialState with isRecording := true } true ⟨0, 0⟩ 5 =
        { initialState with isRecording := true } ∧
      stopTracking initialState 5 (Except.ok none) true = initialState ∧
      (stopTracking (onSample (onSample (onSample
            (startTracking initialState true ⟨0, 0⟩ 1) ⟨1, 1⟩) ⟨2, 2⟩) ⟨3, 3⟩) 2
          (Except.ok none) true =
        { initialState with
            region := ⟨(0 : ℝ), (0 : ℝ), 0.005, 0.005⟩,
            savedSessions :=
              [⟨"session_" ++ toString 2, 1, 2,
                [⟨0, 0⟩, ⟨1, 1⟩, ⟨2, 2⟩, ⟨3, 3⟩]⟩] } ∧
        ∀ sess ∈ (stopTracking (onSample (onSample (onSample
            (startTracking initialState true ⟨0, 0⟩ 1) ⟨1, 1⟩) ⟨2, 2⟩) ⟨3, 3⟩) 2
            (Except.ok none) true).savedSessions,
          sess.startTime ≤ sess.endTime) :=
  ⟨recorder_lifecycle.1 _ true ⟨0, 0⟩ 5 rfl,
    recorder_lifecycle.2.1 initialState 5 (Except.ok none) true rfl rfl rfl rfl rfl,
    recorder_lifecycle.2.2 ⟨0, 0⟩ ⟨1, 1⟩ ⟨2, 2⟩ ⟨3, 3⟩ 1 2 (by norm_num)⟩

/-- C4 (amended): when stopTracking seals a session in memory but the write
to storage fails, the failure is logged and the in-memory saved-session
list is left unchanged — the sealed session is NOT surfaced to the
aggregator for the current run — and the buffer is still cleared. -/
theorem stop_persist_failure_amended :
    ∀ (s : AppState) (now : ℕ) (prev : List GpsSession),
      s.locations ≠ [] → s.startTime ≠ none →
      (stopTracking s now (Except.ok (some (Except.ok prev)))
            false).savedSessions = s.savedSessions ∧
        (stopTracking s now (Except.ok (some (Except.ok prev))) false).log =
          s.log ++ ["Failed to save session:"] ∧
        (stopTracking s now (Except.ok (some (Except.ok prev)))
            false).locations = [] := by
  intro s now prev h1 h2
  have hg : 0 < s.locations.length ∧ s.startTime ≠ none :=
    ⟨List.length_pos.mpr h1, h2⟩
  refine ⟨?_, ?_, rfl⟩ <;> simp [stopTracking, hg]

/-- A concrete recording state: one buffered coordinate (1, 2), tracking
started at time 3. -/
noncomputable def recFixture : AppState :=
  { initialState with
      isRecording := true
      currentLocation := some ⟨1, 2⟩
      locations := [⟨1, 2⟩]
      subscriptionActive := true
      startTime := some 3 }

/-- Witness for the amended C4 at a concrete recording state with a failing
storage write. -/
theorem stop_persist_failure_amended_witness :
    (stopTracking recFixture 7 (Except.ok (some (Except.ok [])))
          false).savedSessions = recFixture.savedSessions ∧
      (stopTracking recFixture 7 (Except.ok (some (Except.ok []))) false).log =
        recFixture.log ++ ["Failed to save session:"] ∧
      (stopTracking recFixture 7 (Except.ok (some (Except.ok [])))
          false).locations = [] :=
  stop_persist_failure_amended recFixture 7 []
    (by simp [recFixture]) (by simp [recFixture])

/-- Counterexample to C4 as stated: the recording state recFixture (buffer
holding the single coordinate (1, 2)) is stopped while the storage write
fails; the sealed session is NOT surfaced to the aggregator — the
saved-session list computeGridCounts consumes is empty, the buffer is
cleared, and the aggregated count of the touched cell is 0. -/
theorem stop_persist_failure_cex :
    (stopTracking recFixture 7 (Except.ok none) false).savedSessions = [] ∧
      (stopTracking recFixture 7 (Except.ok none) false).locations = [] ∧
      gridCounts (stopTracking recFixture 7 (Except.ok none) false).savedSessions
        (stopTracking recFixture 7 (Except.ok none) false).locations
        (coordToGridId 1 2) = 0 :=
  ⟨rfl, rfl, rfl⟩

lemma cos_deg_pos (x : ℝ) (h1 : -90 < x) (h2 : x < 90) :
    0 < Real.cos (x * Real.pi / 180) := by
  have hpi := Real.pi_pos
  apply Real.cos_pos_of_mem_Ioo
  constructor
  · nlinarith [mul_pos hpi (show (0 : ℝ) < x + 90 by linarith)]
  · nlinarith [mul_pos hpi (show (0 : ℝ) < 90 - x by linarith)]

lemma scale_pos (lat : ℝ) (h1 : -90 < lat) (h2 : lat < 90) :
    0 < getMetersPerDegreeLon lat := by
  unfold getMetersPerDegreeLon
  exact mul_pos (by norm_num) (cos_deg_pos lat h1 h2)

lemma cos_deg_strict (x y : ℝ) (h0 : 0 ≤ x) (hxy : x < y) (hy : y ≤ 180) :
    Real.cos (y * Real.pi / 180) < Real.cos (x * Real.pi / 180) := by
  have hpi := Real.pi_pos
  have h0y : 0 ≤ y := h0.trans hxy.le
  have hx1 : x * Real.pi / 180 ∈ Set.Icc 0 Real.pi := by
    constructor
    · positivity
    · nlinarith [mul_pos hpi (show (0 : ℝ) < 180 by norm_num)]
  have hy1 : y * Real.pi / 180 ∈ Set.Icc 0 Real.pi := by
    constructor
    · positivity
    · nlinarith [mul_pos hpi (show (0 : ℝ) < 180 by norm_num)]
  have hlt : x * Real.pi / 180 < y * Real.pi / 180 := by nlinarith
  exact Real.strictAntiOn_cos hx1 hy1 hlt

/-- C5: coordToGridId computes exactly the pair of mathematical floors
(floor(lat*111320/100), floor(lon*111320*cos(lat*pi/180)/100)); floor (not
truncation toward zero) means a negative projected position yields a
negative cell index. -/
theorem cellIdOf_floor_spec :
    ∀ lat lon : ℝ,
      coordToGridId lat lon =
        (⌊lat * 111320 / 100⌋,
          ⌊lon * 111320 * Real.cos (lat * Real.pi / 180) / 100⌋) ∧
        (lat * 111320 / 100 < 0 → (coordToGridId lat lon).1 < 0) ∧
        (lon * 111320 * Real.cos (lat * Real.pi / 180) / 100 < 0 →
          (coordToGridId lat lon).2 < 0) := by
  intro lat lon
  have e1 : lat * METERS_PER_DEGREE_LAT / GRID_SIZE_METERS =
      lat * 111320 / 100 := by
    simp only [METERS_PER_DEGREE_LAT, GRID_SIZE_METERS]
  have e2 : lon * getMetersPerDegreeLon lat / GRID_SIZE_METERS =
      lon * 111320 * Real.cos (lat * Real.pi / 180) / 100 := by
    simp only [getMetersPerDegreeLon, GRID_SIZE_METERS]
    ring
  refine ⟨?_, ?_, ?_⟩
  · show (⌊lat * METERS_PER_DEGREE_LAT / GRID_SIZE_METERS⌋,
        ⌊lon * getMetersPerDegreeLon lat / GRID_SIZE_METERS⌋) =
      (⌊lat * 111320 / 100⌋,
        ⌊lon * 111320 * Real.cos (lat * Real.pi / 180) / 100⌋)
    rw [e1, e2]
  · intro h
    show ⌊lat * METERS_PER_DEGREE_LAT / GRID_SIZE_METERS⌋ < 0
    rw [e1]
    exact Int.floor_lt.mpr (by exact_mod_cast h)
  · intro h
    show ⌊lon * getMetersPerDegreeLon lat / GRID_SIZE_METERS⌋ < 0
    rw [e2]
    exact Int.floor_lt.mpr (by exact_mod_cast h)

/-- Witness for C5 at latitude -1, longitude -1: both projected positions
are negative and both cell indices come out negative. -/
theorem cellIdOf_floor_spec_witness :
    ((-1 : ℝ) * 111320 / 100 < 0) ∧ (coordToGridId (-1) (-1)).1 < 0 ∧
      ((-1 : ℝ) * 111320 * Real.cos ((-1 : ℝ) * Real.pi / 180) / 100 < 0) ∧
      (coordToGridId (-1) (-1)).2 < 0 := by
  have hc : 0 < Real.cos ((-1 : ℝ) * Real.pi / 180) :=
    cos_deg_pos (-1) (by norm_num) (by norm_num)
  have hlt : (-1 : ℝ) * 111320 * Real.cos ((-1 : ℝ) * Real.pi / 180) / 100 < 0 := by
    nlinarith
  exact ⟨by norm_num, (cellIdOf_floor_spec (-1) (-1)).2.1 (by norm_num), hlt,
    (cellIdOf_floor_spec (-1) (-1)).2.2 hlt⟩

/-- C6: gridIdToCorners returns exactly the closed 5-point ring SW, SE, NE,
NW, SW (first and last identical), with latMin/latMax reconstructed from
the row index by the constant latitude scale, latMin strictly below latMax,
and the single longitude scale evaluated at the cell's vertical midpoint
latitude (latMin + latMax) / 2. -/
theorem cellBounds_spec :
    ∀ gi gj : ℤ,
      gridIdToCorners gi gj =
        [⟨latMinOf gi, lonMinOf gi gj⟩, ⟨latMinOf gi, lonMaxOf gi gj⟩,
          ⟨latMaxOf gi, lonMaxOf gi gj⟩, ⟨latMaxOf gi, lonMinOf gi gj⟩,
          ⟨latMinOf gi, lonMinOf gi gj⟩] ∧
        (gridIdToCorners gi gj).length = 5 ∧
        (gridIdToCorners gi gj).head? = (gridIdToCorners gi gj).getLast? ∧
        latMinOf gi = (gi : ℝ) * 100 / 111320 ∧
        latMaxOf gi = ((gi : ℝ) + 1) * 100 / 111320 ∧
        latMinOf gi < latMaxOf gi ∧
        latCenterOf gi = (latMinOf gi + latMaxOf gi) / 2 ∧
        lonMinOf gi gj = (gj : ℝ) * 100 / getMetersPerDegreeLon (latCenterOf gi) ∧
        lonMaxOf gi gj =
          ((gj : ℝ) + 1) * 100 / getMetersPerDegreeLon (latCenterOf gi) := by
  intro gi gj
  refine ⟨rfl, rfl, rfl, rfl, rfl, ?_, rfl, rfl, rfl⟩
  unfold latMinOf latMaxOf METERS_PER_DEGREE_LAT GRID_SIZE_METERS
  rw [div_lt_div_iff₀ (by norm_num) (by norm_num)]
  nlinarith [sq_nonneg ((gi : ℝ))]

/-- C2 (amended): for every cell id and coordinate within the region of
cellBounds(id) excluding the maximum edges, the ROW component always maps
back to gridRow (so the minimum-latitude edge belongs to the cell, not the
neighbor below); the full cell id maps back when the coordinate's latitude
is the cell's vertical midpoint latitude (and that latitude is strictly
between -90 and 90 degrees) — in particular the midpoint-latitude point on
the minimum-longitude edge belongs to the cell, not the one to its left.
(cellIdOf evaluates the longitude scale at the sample's own latitude while
cellBounds uses the cell midpoint, so column containment can fail away from
the midpoint latitude.) -/
theorem cellBounds_containment_amended :
    ∀ (gi gj : ℤ) (lat lon : ℝ),
      inCellRegion gi gj lat lon →
      (coordToGridId lat lon).1 = gi ∧
        (lat = latCenterOf gi → -90 < latCenterOf gi → latCenterOf gi < 90 →
          coordToGridId lat lon = (gi, gj)) := by
  intro gi gj lat lon hreg
  obtain ⟨hlat1, hlat2, hlon1, hlon2⟩ := hreg
  have hrow : ⌊lat * METERS_PER_DEGREE_LAT / GRID_SIZE_METERS⌋ = gi := by
    unfold latMinOf METERS_PER_DEGREE_LAT GRID_SIZE_METERS at hlat1
    unfold latMaxOf METERS_PER_DEGREE_LAT GRID_SIZE_METERS at hlat2
    rw [div_le_iff₀ (by norm_num)] at hlat1
    rw [lt_div_iff₀ (by norm_num)] at hlat2
    rw [Int.floor_eq_iff]
    simp only [METERS_PER_DEGREE_LAT, GRID_SIZE_METERS]
    constructor
    · rw [le_div_iff₀ (by norm_num)]
      linarith
    · rw [div_lt_iff₀ (by norm_num)]
      linarith
  refine ⟨hrow, fun hmid h1 h2 => ?_⟩
  subst hmid
  have hm : 0 < getMetersPerDegreeLon (latCenterOf gi) := scale_pos _ h1 h2
  have hcol : ⌊lon * getMetersPerDegreeLon (latCenterOf gi) /
      GRID_SIZE_METERS⌋ = gj := by
    unfold lonMinOf GRID_SIZE_METERS at hlon1
    unfold lonMaxOf GRID_SIZE_METERS at hlon2
    rw [div_le_iff₀ hm] at hlon1
    rw [lt_div_iff₀ hm] at hlon2
    rw [Int.floor_eq_iff]
    simp only [GRID_SIZE_METERS]
    constructor
    · rw [le_div_iff₀ (by norm_num)]
      linarith
    · rw [div_lt_iff₀ (by norm_num)]
      linarith
  show (⌊latCenterOf gi * METERS_PER_DEGREE_LAT / GRID_SIZE_METERS⌋,
      ⌊lon * getMetersPerDegreeLon (latCenterOf gi) / GRID_SIZE_METERS⌋) =
    (gi, gj)
  rw [hrow, hcol]

/-- Witness for the amended C2: the midpoint-latitude point on the west edge
of cell (0, 0) lies in the region and maps back to (0, 0). -/
theorem cellBounds_containment_amended_witness :
    inCellRegion 0 0 ((50 : ℝ) / 111320) 0 ∧
      (coordToGridId ((50 : ℝ) / 111320) 0).1 = 0 ∧
      coordToGridId ((50 : ℝ) / 111320) 0 = (0, 0) := by
  have hc0 : latCenterOf 0 = 50 / 111320 := by
    unfold latCenterOf latMinOf latMaxOf METERS_PER_DEGREE_LAT GRID_SIZE_METERS
    push_cast
    norm_num
  have hm : 0 < getMetersPerDegreeLon (latCenterOf 0) :=
    scale_pos _ (by rw [hc0]; norm_num) (by rw [hc0]; norm_num)
  have hlon0 : lonMinOf 0 0 = 0 := by
    unfold lonMinOf
    push_cast
    simp
  have hreg : inCellRegion 0 0 ((50 : ℝ) / 111320) 0 := by
    refine ⟨?_, ?_, le_of_eq hlon0, ?_⟩
    · unfold latMinOf METERS_PER_DEGREE_LAT GRID_SIZE_METERS
      push_cast
      norm_num
    · unfold latMaxOf METERS_PER_DEGREE_LAT GRID_SIZE_METERS
      push_cast
      norm_num
    · unfold lonMaxOf
      exact div_pos (by norm_num [GRID_SIZE_METERS]) hm
  have h := cellBounds_containment_amended 0 0 ((50 : ℝ) / 111320) 0 hreg
  exact ⟨hreg, h.1,
    h.2 (by rw [hc0]) (by rw [hc0]; norm_num) (by rw [hc0]; norm_num)⟩

/-- Counterexample to C2 as stated: in cell (40000, 1) — around latitude
35.93 degrees — the point at three quarters of the cell height on the
minimum-longitude edge lies in the cellBounds region (max edges excluded)
yet cellIdOf sends it to column 0, not 1: its latitude is above the cell
midpoint, so its own cosine scale is strictly smaller than the one
cellBounds used, pulling the projected east-position below the cell's
west boundary. -/
theorem cellBounds_containment_cex :
    inCellRegion 40000 1 ((4000075 : ℝ) / 111320) (lonMinOf 40000 1) ∧
      coordToGridId ((4000075 : ℝ) / 111320) (lonMinOf 40000 1) ≠
        (40000, 1) := by
  have hc0 : latCenterOf 40000 = 4000050 / 111320 := by
    unfold latCenterOf latMinOf latMaxOf METERS_PER_DEGREE_LAT GRID_SIZE_METERS
    push_cast
    norm_num
  have hCpos : 0 < Real.cos (latCenterOf 40000 * Real.pi / 180) := by
    rw [hc0]
    exact cos_deg_pos _ (by norm_num) (by norm_num)
  have hm : 0 < getMetersPerDegreeLon (latCenterOf 40000) :=
    scale_pos _ (by rw [hc0]; norm_num) (by rw [hc0]; norm_num)
  have hLpos : 0 < Real.cos ((4000075 : ℝ) / 111320 * Real.pi / 180) :=
    cos_deg_pos _ (by norm_num) (by norm_num)
  have hLC : Real.cos ((4000075 : ℝ) / 111320 * Real.pi / 180) <
      Real.cos (latCenterOf 40000 * Real.pi / 180) := by
    rw [hc0]
    exact cos_deg_strict (4000050 / 111320) (4000075 / 111320)
      (by norm_num) (by norm_num) (by norm_num)
  have hreg : inCellRegion 40000 1 ((4000075 : ℝ) / 111320)
      (lonMinOf 40000 1) := by
    refine ⟨?_, ?_, le_refl _, ?_⟩
    · unfold latMinOf METERS_PER_DEGREE_LAT GRID_SIZE_METERS
      push_cast
      norm_num
    · unfold latMaxOf METERS_PER_DEGREE_LAT GRID_SIZE_METERS
      push_cast
      norm_num
    · unfold lonMinOf lonMaxOf GRID_SIZE_METERS
      rw [div_lt_div_iff₀ hm hm]
      push_cast
      nlinarith [hm]
  have hC' : Real.cos (latCenterOf 40000 * Real.pi / 180) ≠ 0 := ne_of_gt hCpos
  have hval : lonMinOf 40000 1 *
      getMetersPerDegreeLon ((4000075 : ℝ) / 111320) / GRID_SIZE_METERS =
      Real.cos ((4000075 : ℝ) / 111320 * Real.pi / 180) /
        Real.cos (latCenterOf 40000 * Real.pi / 180) := by
    unfold lonMinOf getMetersPerDegreeLon GRID_SIZE_METERS
    push_cast
    field_simp
    ring
  have hfloor : (coordToGridId ((4000075 : ℝ) / 111320)
      (lonMinOf 40000 1)).2 = 0 := by
    show ⌊lonMinOf 40000 1 *
        getMetersPerDegreeLon ((4000075 : ℝ) / 111320) / GRID_SIZE_METERS⌋ = 0
    rw [hval, Int.floor_eq_zero_iff, Set.mem_Ico]
    exact ⟨div_nonneg hLpos.le hCpos.le, (div_lt_one hCpos).mpr hLC⟩
  refine ⟨hreg, fun h => ?_⟩
  rw [h] at hfloor
  simp at hfloor
